import Mathlib

/-!
Verification development for `db_configure_nat.py`, a script that provisions
NAT-gateway networking resources (internet gateway, subnet, NAT gateway,
route table, routes) in an AWS VPC via boto3.

The script is shallowly embedded: each Python function becomes a Lean
function over an explicit `Client` record of provider responses, threading a
trace of provider calls (`List Ev`) and returning `Except` for raised
exceptions.  Unbounded interactive loops and the unboundedly recursive
`create_route` take an explicit fuel parameter; a `none` result means the
fuel bound was exceeded, i.e. the Python code is still looping at that
recursion depth.
-/

namespace DbConfigureNat

/-- Target kind of a `client.create_route` call: `NatGatewayId=...` vs
`GatewayId=...`. -/
inductive RouteKind where
  | nat
  | igw
deriving DecidableEq

/-- A provider (botocore) error.  `notFound` models whether the string
rendering of the exception contains the substring "NotFound", which is the
only property of the message that `create_route` inspects. -/
structure ProviderError where
  notFound : Bool
  msg : String
deriving DecidableEq

/-- Responses of the boto3 EC2 client consumed by the script.  Each field
models one API operation; `create_route_call` additionally receives the
number of create-route calls made so far in the run, so that stubs can fail
on some attempts and succeed on others. -/
structure Client where
  create_internet_gateway : Except ProviderError String
  attach_internet_gateway : String → String → Except ProviderError Unit
  create_subnet : String → String → Except ProviderError String
  allocate_address : Except ProviderError String
  create_nat_gateway : String → String → Except ProviderError String
  nat_gateway_wait : String → Except ProviderError Unit
  create_route_table : String → Except ProviderError String
  associate_route_table : String → String → Except ProviderError Unit
  create_route_call : Nat → String → String → Option String → RouteKind → Except ProviderError Unit

/-- Observable events of a run: provider calls, the retry sleep, and the
error print of the swallowed NAT-gateway failure path. -/
inductive Ev where
  | createIgw
  | attachIgw (igw vpc : String)
  | createSubnet (vpc cidr : String)
  | allocAddr
  | createNat (subnet alloc : String)
  | waitNat (nat : String)
  | createRtb (vpc : String)
  | assocRtb (rtb subnet : String)
  | createRoute (table dest : String) (gw : Option String) (kind : RouteKind)
  | sleep (secs : Nat)
  | printErr (msg : String)
deriving DecidableEq

/-- Is the event a create-route provider call? -/
def isRouteEv : Ev → Bool
  | .createRoute _ _ _ _ => true
  | _ => false

/-- Is the event a `time.sleep` call? -/
def isSleepEv : Ev → Bool
  | .sleep _ => true
  | _ => false

/-- Is the event a call on the provider client (as opposed to a sleep or an
error print)? -/
def isCreationEv : Ev → Bool
  | .sleep _ => false
  | .printErr _ => false
  | _ => true

/-- Did the run wait for NAT gateway availability?  True exactly on the
`get_waiter('nat_gateway_available').wait` event. -/
def isWaitEv : Ev → Bool
  | .waitNat _ => true
  | _ => false

/-- Number of create-route provider calls recorded in a trace; used as the
attempt index passed to `Client.create_route_call`. -/
def routeIdx (tr : List Ev) : Nat := (tr.filter isRouteEv).length

/-- Python `str.lower()` for the ASCII strings used as modes. -/
def pyLower (s : String) : String := ⟨s.data.map Char.toLower⟩

/-- Render of the `gateway` argument in a Python format string (`None` when
the swallowed NAT-gateway failure left the variable unbound/None). -/
def gwStr : Option String → String
  | some s => s
  | none => "None"

/-- The message of the exception raised by `create_route`'s else-branch:
neither "nat" nor "igw" was given as the mode. -/
def inappropriateModeMsg : String :=
  "Inappropriate inputs for create_route. Mode must be either nat or igw."

/-- The exception `create_route` raises when an attempt fails with an error
not containing "NotFound": `Error returned when creating a route to
[destination], from [gateway] using table [route_table]: [e]`. -/
def routeFailure (dest : String) (gw : Option String) (table : String) (inner : String) :
    ProviderError :=
  { notFound := false
    msg := "Error returned when creating a route to " ++ dest ++ ", from " ++ gwStr gw
             ++ " using table " ++ table ++ ": " ++ inner }

/-- Embedding of `create_route(client, route_table, destination, gateway, mode)`.

The Python body dispatches on `mode.lower()`: `nat` issues the create-route
call with `NatGatewayId`, `igw` with `GatewayId`, and anything else raises an
exception (before any client call) that the generic handler re-wraps, since
its message does not contain "NotFound".  If the client call raises an error
whose string contains "NotFound", the code sleeps 5 seconds and recursively
calls itself with mode `'nat'` — with no attempt counter, so the recursion
is bounded only by the `fuel` parameter of the embedding (`none` = still
recursing when the fuel runs out).  Any other error is re-raised wrapped as
`routeFailure`.  On success Python returns the (truthy) response dict,
modelled as `Except.ok ()`. -/
def create_route (c : Client) (table dest : String) (gw : Option String) :
    String → Nat → List Ev → List Ev × Option (Except ProviderError Unit)
  | _, 0, tr => (tr, none)
  | mode, fuel+1, tr =>
    if pyLower mode = "nat" then
      match c.create_route_call (routeIdx tr) table dest gw .nat with
      | .ok _ => (tr ++ [.createRoute table dest gw .nat], some (.ok ()))
      | .error e =>
        if e.notFound then
          create_route c table dest gw "nat" fuel
            (tr ++ [.createRoute table dest gw .nat, .sleep 5])
        else
          (tr ++ [.createRoute table dest gw .nat],
           some (.error (routeFailure dest gw table e.msg)))
    else if pyLower mode = "igw" then
      match c.create_route_call (routeIdx tr) table dest gw .igw with
      | .ok _ => (tr ++ [.createRoute table dest gw .igw], some (.ok ()))
      | .error e =>
        if e.notFound then
          create_route c table dest gw "nat" fuel
            (tr ++ [.createRoute table dest gw .igw, .sleep 5])
        else
          (tr ++ [.createRoute table dest gw .igw],
           some (.error (routeFailure dest gw table e.msg)))
    else
      (tr, some (.error (routeFailure dest gw table inappropriateModeMsg)))

/-- A stub client on which every operation succeeds with fixed identifiers. -/
def okClient : Client where
  create_internet_gateway := .ok "igw-1"
  attach_internet_gateway := fun _ _ => .ok ()
  create_subnet := fun _ _ => .ok "subnet-1"
  allocate_address := .ok "alloc-1"
  create_nat_gateway := fun _ _ => .ok "nat-1"
  nat_gateway_wait := fun _ => .ok ()
  create_route_table := fun _ => .ok "rtb-1"
  associate_route_table := fun _ _ => .ok ()
  create_route_call := fun _ _ _ _ _ => .ok ()

/-- A stub client whose create-route operation always fails with a
NotFound-class error; all other operations succeed. -/
def alwaysNotFoundClient : Client :=
  { okClient with
      create_route_call := fun _ _ _ _ _ =>
        .error { notFound := true, msg := "InvalidRouteTableID.NotFound" } }

/-- Embedding of `create_igw(client, vpc)`: create an internet gateway,
attach it to the VPC; a `ClientError` from either call raises `Could not
create IGW. ...`. -/
def create_igw (c : Client) (vpc : String) (tr : List Ev) :
    List Ev × Except ProviderError String :=
  match c.create_internet_gateway with
  | .error e =>
      (tr ++ [.createIgw],
       .error { notFound := false, msg := "Could not create IGW. Error received: " ++ e.msg })
  | .ok igw =>
    match c.attach_internet_gateway igw vpc with
    | .error e =>
        (tr ++ [.createIgw, .attachIgw igw vpc],
         .error { notFound := false, msg := "Could not create IGW. Error received: " ++ e.msg })
    | .ok _ => (tr ++ [.createIgw, .attachIgw igw vpc], .ok igw)

/-- Embedding of `create_subnet(client, cidr_blk, vpc_id)`: create a subnet
in the VPC; a `ClientError` raises `Error when creating subnet: ...`. -/
def create_subnet (c : Client) (cidr_blk vpc_id : String) (tr : List Ev) :
    List Ev × Except ProviderError String :=
  match c.create_subnet vpc_id cidr_blk with
  | .error e =>
      (tr ++ [.createSubnet vpc_id cidr_blk],
       .error { notFound := false, msg := "Error when creating subnet: " ++ e.msg })
  | .ok subnet_id => (tr ++ [.createSubnet vpc_id cidr_blk], .ok subnet_id)

/-- The message printed by `setup_nat_gateway` when NAT-gateway creation or
the wait raises: `Error returned when creating NAT Gateway Using subnet ID
[subnet], Allocation ID: [alloc]: [e]`. -/
def natGwErrMsg (subnet alloc inner : String) : String :=
  "Error returned when creating NAT Gateway Using subnet ID " ++ subnet
    ++ ", Allocation ID: " ++ alloc ++ ": " ++ inner

/-- Embedding of `setup_nat_gateway(client, subnet)`.

`allocate_address` failure raises (`Error allocating ip: ...`).  After a
successful allocation the whole create-NAT-gateway / wait sequence sits in a
`try` whose `except Exception` handler only prints the error — so a failed
NAT-gateway creation or a failed/timed-out wait does NOT raise: the function
falls off the end and returns `None`, modelled as `.ok none`. -/
def setup_nat_gateway (c : Client) (subnet : String) (tr : List Ev) :
    List Ev × Except ProviderError (Option String) :=
  match c.allocate_address with
  | .error e =>
      (tr ++ [.allocAddr], .error { notFound := false, msg := "Error allocating ip: " ++ e.msg })
  | .ok alloc =>
    match c.create_nat_gateway subnet alloc with
    | .error e =>
        (tr ++ [.allocAddr, .createNat subnet alloc, .printErr (natGwErrMsg subnet alloc e.msg)],
         .ok none)
    | .ok nat =>
      match c.nat_gateway_wait nat with
      | .error e =>
          (tr ++ [.allocAddr, .createNat subnet alloc, .waitNat nat,
                  .printErr (natGwErrMsg subnet alloc e.msg)],
           .ok none)
      | .ok _ =>
          (tr ++ [.allocAddr, .createNat subnet alloc, .waitNat nat], .ok (some nat))

/-- Embedding of `create_route_table(client, vpc, subnet)`: create a route
table in the VPC and associate it with the subnet; a `ClientError` from
either call raises `Error returned when creating Route Table: ...`. -/
def create_route_table (c : Client) (vpc subnet : String) (tr : List Ev) :
    List Ev × Except ProviderError String :=
  match c.create_route_table vpc with
  | .error e =>
      (tr ++ [.createRtb vpc],
       .error { notFound := false, msg := "Error returned when creating Route Table: " ++ e.msg })
  | .ok rtb =>
    match c.associate_route_table rtb subnet with
    | .error e =>
        (tr ++ [.createRtb vpc, .assocRtb rtb subnet],
         .error { notFound := false, msg := "Error returned when creating Route Table: " ++ e.msg })
    | .ok _ => (tr ++ [.createRtb vpc, .assocRtb rtb subnet], .ok rtb)

/-- End-of-pattern check for the Python regex anchor `$` under `re.match`
with no flags: it matches at the very end of the string and also just
before a newline that is the last character. -/
def endOk : List Char → Bool
  | [] => true
  | [ch] => ch = '\n'
  | _ => false

/-- The mask part of the script's CIDR regex, `[0-9]|[1-2][0-9]|3[0-2]`,
applied to what follows the `/`, then the `$` anchor.  Alternation is
modelled as the disjunction of the three alternatives. -/
def maskOk : List Char → Bool
  | [] => false
  | ch :: rest =>
      (ch.isDigit && endOk rest) ||
      (match rest with
       | ch2 :: rest2 =>
           (((ch = '1' || ch = '2') && ch2.isDigit && endOk rest2) ||
            (ch = '3' && (ch2 = '0' || ch2 = '1' || ch2 = '2') && endOk rest2))
       | [] => false)

/-- One `[0-9]{1,3}\.` group of the script's CIDR regex: one to three
digits followed by a literal dot.  Because a digit run followed by a
non-digit admits exactly one split, the greedy-with-backtracking regex
semantics coincide with taking the whole leading digit run and requiring
the next character to be the dot. -/
def octetThenDot (l : List Char) : Option (List Char) :=
  if 1 ≤ (l.takeWhile Char.isDigit).length ∧ (l.takeWhile Char.isDigit).length ≤ 3 then
    match l.dropWhile Char.isDigit with
    | '.' :: r => some r
    | _ => none
  else none

/-- The final `[0-9]{1,3}` octet of the regex followed by the optional
`(\/([0-9]|[1-2][0-9]|3[0-2]))?` group and the `$` anchor. -/
def lastOctet (l : List Char) : Bool :=
  if 1 ≤ (l.takeWhile Char.isDigit).length ∧ (l.takeWhile Char.isDigit).length ≤ 3 then
    endOk (l.dropWhile Char.isDigit) ||
      (match l.dropWhile Char.isDigit with
       | '/' :: r => maskOk r
       | _ => false)
  else false

/-- Embedding of the script's CIDR validation,
`re.compile('^([0-9]dotdot...$').match(s)` coerced to bool: the regex
`([0-9]{1,3}\.){3}[0-9]{1,3}(\/([0-9]|[1-2][0-9]|3[0-2]))?$` anchored at
the start by `re.match`. -/
def cidrMatchL (l : List Char) : Bool :=
  match octetThenDot l with
  | none => false
  | some l1 =>
    match octetThenDot l1 with
    | none => false
    | some l2 =>
      match octetThenDot l2 with
      | none => false
      | some l3 => lastOctet l3

/-- The script's CIDR check on a string. -/
def cidrAccepts (s : String) : Bool := cidrMatchL s.data

/-- Decimal value of a digit run, used for the spec-side mask bound. -/
def digitsVal (ds : List Char) : Nat :=
  ds.foldl (fun a ch => 10 * a + (ch.toNat - 48)) 0

/-- Python `int(s)` on the strings this script feeds it: optionally
whitespace-padded, an optional `+`/`-` sign, then a nonempty run of decimal
digits (digit-group underscores are not modelled; none of the claims
involve them). `none` models the `ValueError` branch. -/
def pyInt (s : String) : Option Int :=
  match (((s.data.dropWhile Char.isWhitespace).reverse).dropWhile Char.isWhitespace).reverse with
  | '-' :: ds =>
      if ds ≠ [] ∧ ds.all Char.isDigit then some (-(digitsVal ds : Int)) else none
  | '+' :: ds =>
      if ds ≠ [] ∧ ds.all Char.isDigit then some ((digitsVal ds : Int)) else none
  | ds =>
      if ds ≠ [] ∧ ds.all Char.isDigit then some ((digitsVal ds : Int)) else none

/-- Embedding of the VPC prompt loop:

`vpc = input(...)` then `while not vpc: print(...); input(...)`.

The loop body calls `input` WITHOUT assigning the result to `vpc`, so once
`vpc` is empty it stays empty: each iteration consumes and discards one
operator input and tests the unchanged `vpc` again.  `v` is the current
value of `vpc`, `ins` the remaining operator inputs; `none` means the loop
is still running when the fuel (or the input stream) runs out. -/
def vpcLoop : Nat → String → List String → Option (String × List String)
  | fuel, v, ins =>
    if v = "" then
      match fuel, ins with
      | f + 1, _ :: ins2 => vpcLoop f v ins2
      | _, _ => none
    else
      some (v, ins)

/-- Embedding of the CIDR prompt loops: `while not cidr_re.match(x): x =
input(...)`.  Unlike the VPC loop, the body does reassign, so the loop
returns the first input that matches the regex. -/
def cidrLoop : Nat → String → List String → Option (String × List String)
  | fuel, x, ins =>
    if cidrAccepts x then
      some (x, ins)
    else
      match fuel, ins with
      | f + 1, i :: ins2 => cidrLoop f i ins2
      | _, _ => none

/-- Embedding of the route-count validation loop: `while success == 0: try:
num_routes = int(num_routes); success = 1 except ValueError: num_routes =
input(...)`.  Accepts the first input that `int()` parses. -/
def numRoutesLoop : Nat → String → List String → Option (Int × List String)
  | fuel, x, ins =>
    match pyInt x with
    | some n => some (n, ins)
    | none =>
      match fuel, ins with
      | f + 1, i :: ins2 => numRoutesLoop f i ins2
      | _, _ => none

/-- Embedding of the additional-routes `for i in range(num_routes)` loop:
prompt for a destination, reprompt until the CIDR regex matches, then
`create_route(client, route_table, route_dest, nat_gateway, 'nat')`.  An
exception raised by `create_route` is NOT caught here and aborts the run;
the `if not success: print warning` branch after it can only see a truthy
response dict, so it is dead code and contributes nothing. -/
def routesLoop (c : Client) (rtb : String) (gw : Option String) (fuel : Nat) :
    Nat → List String → List Ev → List Ev × Option (Except ProviderError Unit)
  | 0, _, tr => (tr, some (.ok ()))
  | k + 1, ins, tr =>
    match ins with
    | [] => (tr, none)
    | d :: ins2 =>
      match cidrLoop fuel d ins2 with
      | none => (tr, none)
      | some (dest, ins3) =>
        match create_route c rtb dest gw "nat" fuel tr with
        | (tr2, none) => (tr2, none)
        | (tr2, some (.error e)) => (tr2, some (.error e))
        | (tr2, some (.ok _)) => routesLoop c rtb gw fuel k ins3 tr2

/-- Embedding of `main()` with the client injected.  `inputs` is the stream
of operator answers to `input()` prompts, consumed left to right; the
result is the trace of provider calls together with `some (.ok ())` for a
run that completes, `some (.error e)` for a run aborted by an uncaught
exception, and `none` when an interactive loop or the retry recursion is
still running when its fuel or the input stream runs out. -/
def pymain (c : Client) (fuel : Nat) (inputs : List String) :
    List Ev × Option (Except ProviderError Unit) :=
  match inputs with
  | [] => ([], none)
  | v0 :: ins0 =>
    match vpcLoop fuel v0 ins0 with
    | none => ([], none)
    | some (vpc, ins1) =>
      match ins1 with
      | [] => ([], none)
      | c0 :: ins2 =>
        match cidrLoop fuel c0 ins2 with
        | none => ([], none)
        | some (cidr, ins3) =>
          match create_igw c vpc [] with
          | (tr, .error e) => (tr, some (.error e))
          | (tr, .ok igw) =>
            match create_subnet c cidr vpc tr with
            | (tr, .error e) => (tr, some (.error e))
            | (tr, .ok subnet) =>
              match setup_nat_gateway c subnet tr with
              | (tr, .error e) => (tr, some (.error e))
              | (tr, .ok natGw) =>
                match create_route_table c vpc subnet tr with
                | (tr, .error e) => (tr, some (.error e))
                | (tr, .ok rtb) =>
                  match create_route c rtb "0.0.0.0/0" (some igw) "igw" fuel tr with
                  | (tr, none) => (tr, none)
                  | (tr, some (.error e)) => (tr, some (.error e))
                  | (tr, some (.ok _)) =>
                    match ins3 with
                    | [] => (tr, none)
                    | n0 :: ins4 =>
                      match numRoutesLoop fuel n0 ins4 with
                      | none => (tr, none)
                      | some (n, ins5) =>
                        routesLoop c rtb natGw fuel n.toNat ins5 tr

/-- The mode dispatch of `create_route`: which target kind a mode string
selects, `none` when the mode is invalid. -/
def modeKind (mode : String) : Option RouteKind :=
  if pyLower mode = "nat" then some .nat
  else if pyLower mode = "igw" then some .igw
  else none

/-- Is the event the create-NAT-gateway provider call? -/
def isNatCreateEv : Ev → Bool
  | .createNat _ _ => true
  | _ => false

/-- A stub client whose create-route operation always fails with an error
that does not contain "NotFound"; all other operations succeed. -/
def deniedClient : Client :=
  { okClient with
      create_route_call := fun _ _ _ _ _ =>
        .error { notFound := false, msg := "AccessDenied" } }

/-- A stub client on which the NAT-gateway availability waiter always
fails (the gateway never becomes Active); all other operations succeed. -/
def waitFailClient : Client :=
  { okClient with
      nat_gateway_wait := fun _ =>
        .error { notFound := false
                 msg := "Waiter NatGatewayAvailable failed: Max attempts exceeded" } }

/-- A stub client on which creating the NAT gateway itself fails; all
other operations succeed. -/
def natCreateFailClient : Client :=
  { okClient with
      create_nat_gateway := fun _ _ =>
        .error { notFound := false, msg := "NatGatewayLimitExceeded" } }

/-- A stub client on which the first create-route call (the default route)
succeeds and every later one fails with a non-NotFound error; all other
operations succeed. -/
def addlRouteFailClient : Client :=
  { okClient with
      create_route_call := fun i _ _ _ _ =>
        if i = 0 then .ok ()
        else .error { notFound := false, msg := "UnauthorizedOperation" } }

/-- Modelled from the claim text of C5: one octet, i.e. 1 to 3 decimal
digits. -/
def IsOctet (ds : List Char) : Prop :=
  ds ≠ [] ∧ ds.length ≤ 3 ∧ ∀ ch ∈ ds, ch.isDigit = true

/-- The mask alternatives actually present in the script's regex,
`[0-9]|[1-2][0-9]|3[0-2]`: a single digit, or `1`/`2` followed by a digit,
or `3` followed by `0`, `1` or `2` — the decimal numerals of 0 to 32
without leading zeros. -/
def IsMask (m : List Char) : Prop :=
  (∃ c0, m = [c0] ∧ c0.isDigit = true) ∨
  (∃ c0 c1, m = [c0, c1] ∧ (c0 = '1' ∨ c0 = '2') ∧ c1.isDigit = true) ∨
  (∃ c1, m = ['3', c1] ∧ (c1 = '0' ∨ c1 = '1' ∨ c1 = '2'))

/-- What may legally follow the four octets: nothing, a bare trailing
newline (admitted by the `$` anchor), or a slash, a mask and an optional
trailing newline. -/
def TailOk (tail : List Char) : Prop :=
  tail = [] ∨ tail = ['\n'] ∨
    ∃ m nl, tail = '/' :: (m ++ nl) ∧ IsMask m ∧ (nl = [] ∨ nl = ['\n'])

/-- The amended shape of an accepted CIDR string: four dot-separated
octets of 1–3 digits, then an admissible tail. -/
def AmendedCidr (s : String) : Prop :=
  ∃ a b c d tail,
    s.data = a ++ ('.' :: (b ++ ('.' :: (c ++ ('.' :: (d ++ tail)))))) ∧
    IsOctet a ∧ IsOctet b ∧ IsOctet c ∧ IsOctet d ∧ TailOk tail

/-- Modelled from the claim text of C5: the mask of the claim's reference
regex, `/\d{1,2}` with numeric value at most 32. -/
def specMaskOk (r : List Char) : Bool :=
  (1 ≤ (r.takeWhile Char.isDigit).length && (r.takeWhile Char.isDigit).length ≤ 2)
    && (r.dropWhile Char.isDigit).isEmpty
    && digitsVal (r.takeWhile Char.isDigit) ≤ 32

/-- Modelled from the claim text of C5: a string matches
`^(\d{1,3}\.){3}\d{1,3}(/\d{1,2})?$` with mask value at most 32, reading
the pattern as the exact shape `A.B.C.D` or `A.B.C.D/N` of the claim. -/
def specCidrAccepts (s : String) : Bool :=
  match octetThenDot s.data with
  | none => false
  | some l1 =>
    match octetThenDot l1 with
    | none => false
    | some l2 =>
      match octetThenDot l2 with
      | none => false
      | some l3 =>
        if 1 ≤ (l3.takeWhile Char.isDigit).length ∧ (l3.takeWhile Char.isDigit).length ≤ 3 then
          match l3.dropWhile Char.isDigit with
          | [] => true
          | '/' :: r => specMaskOk r
          | _ => false
        else false

/-! ### General lemmas about the embedding -/

theorem routeOrSleep_not_wait {Δ : List Ev}
    (h : ∀ e ∈ Δ, isRouteEv e = true ∨ e = .sleep 5) (x : String) :
    Ev.waitNat x ∉ Δ := by
  intro hmem
  rcases h _ hmem with h1 | h1
  · simp [isRouteEv] at h1
  · simp at h1

theorem create_route_trace (c : Client) (t d : String) (g : Option String) :
    ∀ (fuel : Nat) (mode : String) (tr : List Ev),
      ∃ Δ, (create_route c t d g mode fuel tr).1 = tr ++ Δ ∧
        (∀ e ∈ Δ, isRouteEv e = true ∨ e = .sleep 5) ∧
        ((create_route c t d g mode fuel tr).2 = some (.ok ()) →
          ∃ e ∈ Δ, isRouteEv e = true) := by
  intro fuel
  induction fuel with
  | zero =>
    intro mode tr
    exact ⟨[], by simp [create_route], by simp, by simp [create_route]⟩
  | succ f ih =>
    intro mode tr
    by_cases h1 : pyLower mode = "nat"
    · simp only [create_route, h1, if_pos]
      cases hc : c.create_route_call (routeIdx tr) t d g .nat with
      | ok v =>
        refine ⟨[.createRoute t d g .nat], by simp, by simp [isRouteEv], ?_⟩
        intro _
        exact ⟨.createRoute t d g .nat, by simp, by simp [isRouteEv]⟩
      | error e =>
        by_cases hnf : e.notFound
        · obtain ⟨Δ, hΔ, hall, _⟩ := ih "nat" (tr ++ [.createRoute t d g .nat, .sleep 5])
          refine ⟨.createRoute t d g .nat :: .sleep 5 :: Δ, ?_, ?_, ?_⟩
          · simp only [hnf, if_pos]
            rw [hΔ]
            simp
          · intro e' he'
            simp only [List.mem_cons] at he'
            rcases he' with rfl | rfl | he'
            · exact Or.inl (by simp [isRouteEv])
            · exact Or.inr rfl
            · exact hall _ he'
          · intro _
            exact ⟨.createRoute t d g .nat, by simp, by simp [isRouteEv]⟩
        · refine ⟨[.createRoute t d g .nat], by simp [hnf], by simp [isRouteEv], ?_⟩
          intro h
          simp [hnf] at h
    · by_cases h2 : pyLower mode = "igw"
      · simp only [create_route]
        rw [if_neg h1, if_pos h2]
        cases hc : c.create_route_call (routeIdx tr) t d g .igw with
        | ok v =>
          refine ⟨[.createRoute t d g .igw], by simp, by simp [isRouteEv], ?_⟩
          intro _
          exact ⟨.createRoute t d g .igw, by simp, by simp [isRouteEv]⟩
        | error e =>
          by_cases hnf : e.notFound
          · obtain ⟨Δ, hΔ, hall, _⟩ := ih "nat" (tr ++ [.createRoute t d g .igw, .sleep 5])
            refine ⟨.createRoute t d g .igw :: .sleep 5 :: Δ, ?_, ?_, ?_⟩
            · simp only [hnf, if_pos]
              rw [hΔ]
              simp
            · intro e' he'
              simp only [List.mem_cons] at he'
              rcases he' with rfl | rfl | he'
              · exact Or.inl (by simp [isRouteEv])
              · exact Or.inr rfl
              · exact hall _ he'
            · intro _
              exact ⟨.createRoute t d g .igw, by simp, by simp [isRouteEv]⟩
          · refine ⟨[.createRoute t d g .igw], by simp [hnf], by simp [isRouteEv], ?_⟩
            intro h
            simp [hnf] at h
      · refine ⟨[], ?_, by simp, ?_⟩
        · simp [create_route, h1, h2]
        · intro h
          simp [create_route, h1, h2] at h

theorem routesLoop_trace (c : Client) (rtb : String) (gw : Option String) (fuel : Nat) :
    ∀ (k : Nat) (ins : List String) (tr : List Ev),
      ∃ Δ, (routesLoop c rtb gw fuel k ins tr).1 = tr ++ Δ ∧
        (∀ e ∈ Δ, isRouteEv e = true ∨ e = .sleep 5) := by
  intro k
  induction k with
  | zero =>
    intro ins tr
    exact ⟨[], by simp [routesLoop], by simp⟩
  | succ n ih =>
    intro ins tr
    cases ins with
    | nil => exact ⟨[], by simp [routesLoop], by simp⟩
    | cons d ins2 =>
      cases hcl : cidrLoop fuel d ins2 with
      | none =>
        refine ⟨[], ?_, by simp⟩
        simp [routesLoop, hcl]
      | some p =>
        obtain ⟨dest, ins3⟩ := p
        obtain ⟨Δ1, hΔ1, hall1, _⟩ := create_route_trace c rtb dest gw fuel "nat" tr
        cases hcr : create_route c rtb dest gw "nat" fuel tr with
        | mk tr2 res =>
          rw [hcr] at hΔ1
          simp only at hΔ1
          subst hΔ1
          cases res with
          | none =>
            refine ⟨Δ1, ?_, hall1⟩
            simp [routesLoop, hcl, hcr]
          | some r =>
            cases r with
            | error e =>
              refine ⟨Δ1, ?_, hall1⟩
              simp [routesLoop, hcl, hcr]
            | ok v =>
              obtain ⟨Δ2, hΔ2, hall2⟩ := ih ins3 (tr ++ Δ1)
              refine ⟨Δ1 ++ Δ2, ?_, ?_⟩
              · simp only [routesLoop, hcl, hcr]
                rw [hΔ2, List.append_assoc]
              · intro e' he'
                rcases List.mem_append.mp he' with he' | he'
                · exact hall1 _ he'
                · exact hall2 _ he'

theorem create_route_trace_nat (c : Client) (t d : String) (g : Option String) :
    ∀ (fuel : Nat) (tr : List Ev),
      ∃ Δ, (create_route c t d g "nat" fuel tr).1 = tr ++ Δ ∧
        (∀ e ∈ Δ, e = .createRoute t d g .nat ∨ e = .sleep 5) ∧
        ((create_route c t d g "nat" fuel tr).2 = some (.ok ()) →
          ∃ e ∈ Δ, isRouteEv e = true) := by
  intro fuel
  induction fuel with
  | zero =>
    intro tr
    exact ⟨[], by simp [create_route], by simp, by simp [create_route]⟩
  | succ f ih =>
    intro tr
    simp only [create_route]
    rw [if_pos (show pyLower "nat" = "nat" from rfl)]
    cases hc : c.create_route_call (routeIdx tr) t d g .nat with
    | ok v =>
      refine ⟨[.createRoute t d g .nat], by simp, by simp, ?_⟩
      intro _
      exact ⟨.createRoute t d g .nat, by simp, by simp [isRouteEv]⟩
    | error e =>
      by_cases hnf : e.notFound
      · obtain ⟨Δ, hΔ, hall, _⟩ := ih (tr ++ [.createRoute t d g .nat, .sleep 5])
        refine ⟨.createRoute t d g .nat :: .sleep 5 :: Δ, ?_, ?_, ?_⟩
        · simp only [hnf, if_pos]
          rw [hΔ]
          simp
        · intro e' he'
          simp only [List.mem_cons] at he'
          rcases he' with rfl | rfl | he'
          · exact Or.inl rfl
          · exact Or.inr rfl
          · exact hall _ he'
        · intro _
          exact ⟨.createRoute t d g .nat, by simp, by simp [isRouteEv]⟩
      · refine ⟨[.createRoute t d g .nat], by simp [hnf], by simp, ?_⟩
        intro h
        simp [hnf] at h

theorem create_igw_ok {c : Client} {vpc : String} {tr tr2 : List Ev} {igw : String}
    (h : create_igw c vpc tr = (tr2, .ok igw)) :
    tr2 = tr ++ [.createIgw, .attachIgw igw vpc] := by
  unfold create_igw at h
  split at h
  · simp at h
  · split at h
    · simp at h
    · simp only [Prod.mk.injEq, Except.ok.injEq] at h
      obtain ⟨h1, h2⟩ := h
      subst h2
      exact h1.symm

theorem create_subnet_ok {c : Client} {cidr vpc : String} {tr tr2 : List Ev} {subnet : String}
    (h : create_subnet c cidr vpc tr = (tr2, .ok subnet)) :
    tr2 = tr ++ [.createSubnet vpc cidr] := by
  unfold create_subnet at h
  split at h
  · simp at h
  · simp only [Prod.mk.injEq, Except.ok.injEq] at h
    exact h.1.symm

theorem create_route_table_ok {c : Client} {vpc subnet : String} {tr tr2 : List Ev}
    {rtb : String} (h : create_route_table c vpc subnet tr = (tr2, .ok rtb)) :
    tr2 = tr ++ [.createRtb vpc, .assocRtb rtb subnet] := by
  unfold create_route_table at h
  split at h
  · simp at h
  · split at h
    · simp at h
    · simp only [Prod.mk.injEq, Except.ok.injEq] at h
      obtain ⟨h1, h2⟩ := h
      subst h2
      exact h1.symm

theorem setup_nat_gateway_ok {c : Client} {subnet : String} {tr tr2 : List Ev}
    {natGw : Option String} (h : setup_nat_gateway c subnet tr = (tr2, .ok natGw)) :
    (∃ alloc m, natGw = none ∧
        tr2 = tr ++ [.allocAddr, .createNat subnet alloc, .printErr m]) ∨
    (∃ alloc natId m, natGw = none ∧
        tr2 = tr ++ [.allocAddr, .createNat subnet alloc, .waitNat natId, .printErr m]) ∨
    (∃ alloc natId, natGw = some natId ∧
        tr2 = tr ++ [.allocAddr, .createNat subnet alloc, .waitNat natId]) := by
  unfold setup_nat_gateway at h
  split at h
  · simp at h
  · rename_i alloc heq1
    split at h
    · simp only [Prod.mk.injEq, Except.ok.injEq] at h
      obtain ⟨h1, h2⟩ := h
      exact Or.inl ⟨alloc, _, h2.symm, h1.symm⟩
    · rename_i nat heq2
      split at h
      · simp only [Prod.mk.injEq, Except.ok.injEq] at h
        obtain ⟨h1, h2⟩ := h
        exact Or.inr (Or.inl ⟨alloc, nat, _, h2.symm, h1.symm⟩)
      · simp only [Prod.mk.injEq, Except.ok.injEq] at h
        obtain ⟨h1, h2⟩ := h
        exact Or.inr (Or.inr ⟨alloc, nat, h2.symm, h1.symm⟩)

theorem modeKind_cases {mode : String} {k : RouteKind} (hk : modeKind mode = some k) :
    (pyLower mode = "nat" ∧ k = .nat) ∨
    (pyLower mode ≠ "nat" ∧ pyLower mode = "igw" ∧ k = .igw) := by
  unfold modeKind at hk
  by_cases h1 : pyLower mode = "nat"
  · rw [if_pos h1] at hk
    simp only [Option.some.injEq] at hk
    exact Or.inl ⟨h1, hk.symm⟩
  · rw [if_neg h1] at hk
    by_cases h2 : pyLower mode = "igw"
    · rw [if_pos h2] at hk
      simp only [Option.some.injEq] at hk
      exact Or.inr ⟨h1, h2, hk.symm⟩
    · rw [if_neg h2] at hk
      simp at hk

theorem create_route_step_notfound (c : Client) (t d : String) (g : Option String)
    (mode : String) (k : RouteKind) (fuel : Nat) (tr : List Ev) (e : ProviderError)
    (hk : modeKind mode = some k)
    (hc : c.create_route_call (routeIdx tr) t d g k = .error e)
    (hnf : e.notFound = true) :
    create_route c t d g mode (fuel + 1) tr =
      create_route c t d g "nat" fuel (tr ++ [.createRoute t d g k, .sleep 5]) := by
  rcases modeKind_cases hk with ⟨h1, rfl⟩ | ⟨h1, h2, rfl⟩
  · simp only [create_route]
    rw [if_pos h1, hc]
    simp [hnf]
  · simp only [create_route]
    rw [if_neg h1, if_pos h2, hc]
    simp [hnf]

theorem create_route_step_fail (c : Client) (t d : String) (g : Option String)
    (mode : String) (k : RouteKind) (fuel : Nat) (tr : List Ev) (e : ProviderError)
    (hk : modeKind mode = some k)
    (hc : c.create_route_call (routeIdx tr) t d g k = .error e)
    (hnf : e.notFound = false) :
    create_route c t d g mode (fuel + 1) tr =
      (tr ++ [.createRoute t d g k], some (.error (routeFailure d g t e.msg))) := by
  rcases modeKind_cases hk with ⟨h1, rfl⟩ | ⟨h1, h2, rfl⟩
  · simp only [create_route]
    rw [if_pos h1, hc]
    simp [hnf]
  · simp only [create_route]
    rw [if_neg h1, if_pos h2, hc]
    simp [hnf]

theorem create_route_step_ok (c : Client) (t d : String) (g : Option String)
    (mode : String) (k : RouteKind) (fuel : Nat) (tr : List Ev)
    (hk : modeKind mode = some k)
    (hc : c.create_route_call (routeIdx tr) t d g k = .ok ()) :
    create_route c t d g mode (fuel + 1) tr =
      (tr ++ [.createRoute t d g k], some (.ok ())) := by
  rcases modeKind_cases hk with ⟨h1, rfl⟩ | ⟨h1, h2, rfl⟩
  · simp only [create_route]
    rw [if_pos h1, hc]
  · simp only [create_route]
    rw [if_neg h1, if_pos h2, hc]

theorem create_route_trace_start (c : Client) (t d : String) (g : Option String)
    (mode : String) (k : RouteKind) (fuel : Nat) (tr : List Ev)
    (hk : modeKind mode = some k)
    (hok : (create_route c t d g mode fuel tr).2 = some (.ok ())) :
    ∃ Δrest,
      (create_route c t d g mode fuel tr).1 = tr ++ .createRoute t d g k :: Δrest ∧
      ∀ e ∈ Δrest, e = .createRoute t d g .nat ∨ e = .sleep 5 := by
  cases fuel with
  | zero => simp [create_route] at hok
  | succ f =>
    cases hc : c.create_route_call (routeIdx tr) t d g k with
    | ok v =>
      have hstep := create_route_step_ok c t d g mode k f tr hk hc
      refine ⟨[], ?_, by simp⟩
      rw [hstep]
    | error e =>
      by_cases hnf : e.notFound
      · have hstep := create_route_step_notfound c t d g mode k f tr e hk hc hnf
        obtain ⟨Δ, hΔ, hall, _⟩ :=
          create_route_trace_nat c t d g f (tr ++ [.createRoute t d g k, .sleep 5])
        refine ⟨.sleep 5 :: Δ, ?_, ?_⟩
        · rw [hstep, hΔ]
          simp
        · intro e' he'
          rcases List.mem_cons.mp he' with rfl | he'
          · exact Or.inr rfl
          · exact hall _ he'
      · have hnf2 : e.notFound = false := by simpa using hnf
        have hstep := create_route_step_fail c t d g mode k f tr e hk hc hnf2
        rw [hstep] at hok
        simp at hok

theorem routesLoop_trace_nat (c : Client) (rtb : String) (gw : Option String) (fuel : Nat) :
    ∀ (k : Nat) (ins : List String) (tr : List Ev),
      ∃ Δ, (routesLoop c rtb gw fuel k ins tr).1 = tr ++ Δ ∧
        ∀ e ∈ Δ, (∃ dst, e = .createRoute rtb dst gw .nat) ∨ e = .sleep 5 := by
  intro k
  induction k with
  | zero =>
    intro ins tr
    exact ⟨[], by simp [routesLoop], by simp⟩
  | succ n ih =>
    intro ins tr
    cases ins with
    | nil => exact ⟨[], by simp [routesLoop], by simp⟩
    | cons d ins2 =>
      cases hcl : cidrLoop fuel d ins2 with
      | none =>
        refine ⟨[], ?_, by simp⟩
        simp [routesLoop, hcl]
      | some p =>
        obtain ⟨dest, ins3⟩ := p
        obtain ⟨Δ1, hΔ1, hall1, _⟩ := create_route_trace_nat c rtb dest gw fuel tr
        cases hcr : create_route c rtb dest gw "nat" fuel tr with
        | mk tr2 res =>
          rw [hcr] at hΔ1
          simp only at hΔ1
          subst hΔ1
          have hall0 : ∀ e ∈ Δ1, (∃ dst, e = Ev.createRoute rtb dst gw .nat) ∨ e = .sleep 5 :=
            fun e he => (hall1 e he).imp (fun h => ⟨dest, h⟩) id
          cases res with
          | none =>
            refine ⟨Δ1, ?_, hall0⟩
            simp [routesLoop, hcl, hcr]
          | some r =>
            cases r with
            | error e =>
              refine ⟨Δ1, ?_, hall0⟩
              simp [routesLoop, hcl, hcr]
            | ok v =>
              obtain ⟨Δ2, hΔ2, hall2⟩ := ih ins3 (tr ++ Δ1)
              refine ⟨Δ1 ++ Δ2, ?_, ?_⟩
              · simp only [routesLoop, hcl, hcr]
                rw [hΔ2, List.append_assoc]
              · intro e' he'
                rcases List.mem_append.mp he' with he' | he'
                · exact hall0 _ he'
                · exact hall2 _ he'

theorem natRouteOrSleep_not_wait {Δ : List Ev} {rtb : String} {gw : Option String}
    (h : ∀ e ∈ Δ, (∃ dst, e = .createRoute rtb dst gw .nat) ∨ e = .sleep 5) (x : String) :
    Ev.waitNat x ∉ Δ := by
  intro hmem
  rcases h _ hmem with ⟨dst, h1⟩ | h1 <;> simp at h1

theorem fixedRouteOrSleep_not_wait {Δ : List Ev} {t d : String} {g : Option String}
    (h : ∀ e ∈ Δ, e = .createRoute t d g .nat ∨ e = .sleep 5) (x : String) :
    Ev.waitNat x ∉ Δ := by
  intro hmem
  rcases h _ hmem with h1 | h1 <;> simp at h1

theorem alwaysNotFound_aux :
    ∀ (fuel : Nat) (tr : List Ev),
      (create_route alwaysNotFoundClient "rtb-1" "10.1.0.0/16" (some "nat-1") "nat" fuel tr).2
          = none ∧
      (((create_route alwaysNotFoundClient "rtb-1" "10.1.0.0/16" (some "nat-1") "nat"
            fuel tr).1.filter isRouteEv).length)
          = ((tr.filter isRouteEv).length) + fuel := by
  intro fuel
  induction fuel with
  | zero =>
    intro tr
    exact ⟨rfl, by simp [create_route]⟩
  | succ f ih =>
    intro tr
    have hstep :
        create_route alwaysNotFoundClient "rtb-1" "10.1.0.0/16" (some "nat-1") "nat" (f + 1) tr
          = create_route alwaysNotFoundClient "rtb-1" "10.1.0.0/16" (some "nat-1") "nat" f
              (tr ++ [.createRoute "rtb-1" "10.1.0.0/16" (some "nat-1") .nat, .sleep 5]) := by
      apply create_route_step_notfound
      · rfl
      · rfl
      · rfl
    rw [hstep]
    obtain ⟨h1, h2⟩ :=
      ih (tr ++ [.createRoute "rtb-1" "10.1.0.0/16" (some "nat-1") .nat, .sleep 5])
    refine ⟨h1, ?_⟩
    rw [h2]
    simp [List.filter_append, isRouteEv]
    omega

/-- C1: the spec claims the NotFound retry is bounded — at most one retry,
at most two underlying create-route calls, guaranteed termination.  The
source instead re-invokes `create_route` recursively on every
NotFound-class failure with no attempt counter: against a stub that always
fails with NotFound, the recursion makes exactly `fuel` underlying
create-route calls for EVERY fuel bound and never returns a result, i.e.
the number of attempts is unbounded and the policy never reports Failure. -/
theorem C1_notfound_retry_unbounded (fuel : Nat) :
    (create_route alwaysNotFoundClient "rtb-1" "10.1.0.0/16" (some "nat-1") "nat" fuel []).2
        = none ∧
    (((create_route alwaysNotFoundClient "rtb-1" "10.1.0.0/16" (some "nat-1") "nat"
          fuel []).1.filter isRouteEv).length) = fuel := by
  have h := alwaysNotFound_aux fuel []
  simpa using h

/-- C6: a create-route attempt that fails with a provider error whose
message is not NotFound-class raises immediately: the underlying
create-route call happens exactly once (the trace gains exactly one
create-route event) and the result is the wrapped failure, for either
valid mode. -/
theorem C6_non_notfound_fails_immediately (c : Client) (t d : String) (g : Option String)
    (mode : String) (k : RouteKind) (fuel : Nat) (e : ProviderError)
    (hk : modeKind mode = some k)
    (hc : c.create_route_call 0 t d g k = .error e)
    (hnf : e.notFound = false) :
    create_route c t d g mode (fuel + 1) [] =
      ([.createRoute t d g k], some (.error (routeFailure d g t e.msg))) := by
  have h := create_route_step_fail c t d g mode k fuel [] e hk hc hnf
  simpa using h

theorem C6_witness :
    create_route deniedClient "rtb-1" "10.0.0.0/8" (some "nat-1") "nat" 4 [] =
      ([.createRoute "rtb-1" "10.0.0.0/8" (some "nat-1") .nat],
       some (.error (routeFailure "10.0.0.0/8" (some "nat-1") "rtb-1" "AccessDenied"))) :=
  C6_non_notfound_fails_immediately deniedClient "rtb-1" "10.0.0.0/8" (some "nat-1")
    "nat" .nat 3 { notFound := false, msg := "AccessDenied" } rfl rfl rfl

/-- C7: when a create-route attempt fails with a NotFound-class error, the
retried attempt is issued with target kind NAT regardless of the original
mode: the trace continues `original-kind call, sleep 5, NAT-kind call`. -/
theorem C7_retry_forces_nat (c : Client) (t d : String) (g : Option String)
    (mode : String) (k : RouteKind) (fuel : Nat) (e : ProviderError)
    (hk : modeKind mode = some k)
    (hc : c.create_route_call 0 t d g k = .error e)
    (hnf : e.notFound = true) :
    ∃ rest, (create_route c t d g mode (fuel + 2) []).1 =
      .createRoute t d g k :: .sleep 5 :: .createRoute t d g .nat :: rest := by
  have hstep := create_route_step_notfound c t d g mode k (fuel + 1) [] e hk hc hnf
  rw [hstep]
  simp only [List.nil_append]
  simp only [create_route]
  rw [if_pos (show pyLower "nat" = "nat" from rfl)]
  cases hc2 : c.create_route_call (routeIdx [Ev.createRoute t d g k, Ev.sleep 5]) t d g .nat with
  | ok v =>
    exact ⟨[], by simp⟩
  | error e2 =>
    by_cases hnf2 : e2.notFound
    · obtain ⟨Δ, hΔ, hall, hok⟩ := create_route_trace c t d g fuel "nat"
        ([Ev.createRoute t d g k, Ev.sleep 5] ++ [Ev.createRoute t d g RouteKind.nat, Ev.sleep 5])
      simp only [List.cons_append, List.nil_append] at hΔ
      refine ⟨.sleep 5 :: Δ, ?_⟩
      simp only [hnf2, if_pos]
      simp only [List.cons_append, List.nil_append]
      exact hΔ
    · exact ⟨[], by simp [hnf2]⟩

theorem C7_witness :
    ∃ rest,
      (create_route alwaysNotFoundClient "rtb-1" "0.0.0.0/0" (some "igw-1") "igw" 5 []).1 =
        .createRoute "rtb-1" "0.0.0.0/0" (some "igw-1") .igw :: .sleep 5 ::
          .createRoute "rtb-1" "0.0.0.0/0" (some "igw-1") RouteKind.nat :: rest :=
  C7_retry_forces_nat alwaysNotFoundClient "rtb-1" "0.0.0.0/0" (some "igw-1") "igw" .igw 3
    { notFound := true, msg := "InvalidRouteTableID.NotFound" } rfl rfl rfl

/-- C10: an invalid mode (anything whose lowercasing is neither "nat" nor
"igw") makes `create_route` raise before any provider call: the trace is
unchanged and the result is the wrapped invalid-mode error; while modes
that lowercase to "nat" or "igw" in any capitalisation dispatch the
corresponding provider call. -/
theorem C10_invalid_mode_no_call (c : Client) (t d : String) (g : Option String)
    (mode : String) (fuel : Nat) (tr : List Ev)
    (h1 : pyLower mode ≠ "nat") (h2 : pyLower mode ≠ "igw") :
    create_route c t d g mode (fuel + 1) tr =
        (tr, some (.error (routeFailure d g t inappropriateModeMsg)))
      ∧ create_route okClient t d g "NAT" (fuel + 1) tr =
          (tr ++ [.createRoute t d g .nat], some (.ok ()))
      ∧ create_route okClient t d g "Nat" (fuel + 1) tr =
          (tr ++ [.createRoute t d g .nat], some (.ok ()))
      ∧ create_route okClient t d g "IGW" (fuel + 1) tr =
          (tr ++ [.createRoute t d g .igw], some (.ok ()))
      ∧ create_route okClient t d g "iGw" (fuel + 1) tr =
          (tr ++ [.createRoute t d g .igw], some (.ok ())) := by
  refine ⟨?_, ?_, ?_, ?_, ?_⟩
  · simp only [create_route]
    rw [if_neg h1, if_neg h2]
  · exact create_route_step_ok okClient t d g "NAT" .nat fuel tr rfl rfl
  · exact create_route_step_ok okClient t d g "Nat" .nat fuel tr rfl rfl
  · exact create_route_step_ok okClient t d g "IGW" .igw fuel tr rfl rfl
  · exact create_route_step_ok okClient t d g "iGw" .igw fuel tr rfl rfl

theorem C10_witness :
    create_route okClient "rtb-1" "10.0.0.0/8" (some "pcx-1") "peering" 3 [] =
        ([], some (.error (routeFailure "10.0.0.0/8" (some "pcx-1") "rtb-1"
          inappropriateModeMsg)))
      ∧ create_route okClient "rtb-1" "10.0.0.0/8" (some "pcx-1") "NAT" 3 [] =
          ([.createRoute "rtb-1" "10.0.0.0/8" (some "pcx-1") .nat], some (.ok ()))
      ∧ create_route okClient "rtb-1" "10.0.0.0/8" (some "pcx-1") "Nat" 3 [] =
          ([.createRoute "rtb-1" "10.0.0.0/8" (some "pcx-1") .nat], some (.ok ()))
      ∧ create_route okClient "rtb-1" "10.0.0.0/8" (some "pcx-1") "IGW" 3 [] =
          ([.createRoute "rtb-1" "10.0.0.0/8" (some "pcx-1") .igw], some (.ok ()))
      ∧ create_route okClient "rtb-1" "10.0.0.0/8" (some "pcx-1") "iGw" 3 [] =
          ([.createRoute "rtb-1" "10.0.0.0/8" (some "pcx-1") .igw], some (.ok ())) := by
  have h := C10_invalid_mode_no_call okClient "rtb-1" "10.0.0.0/8" (some "pcx-1")
    "peering" 2 [] (by decide) (by decide)
  simpa using h

/-- C9: the spec claims the VPC prompt reprompts until a non-empty string
is entered and then proceeds with it.  The loop body of the source calls
`input()` without assigning the result back to `vpc`, so when the first
answer is empty the loop discards every subsequent input and never exits
(first conjunct, for every fuel bound and every input stream); a non-empty
first answer is used directly (second conjunct). -/
theorem C9_vpc_prompt_loop :
    (∀ (fuel : Nat) (ins : List String), vpcLoop fuel "" ins = none) ∧
    (∀ (fuel : Nat) (v : String) (ins : List String),
        v ≠ "" → vpcLoop fuel v ins = some (v, ins)) := by
  constructor
  · intro fuel
    induction fuel with
    | zero =>
      intro ins
      simp [vpcLoop]
    | succ f ih =>
      intro ins
      cases ins with
      | nil => simp [vpcLoop]
      | cons i ins2 =>
        simp only [vpcLoop, if_pos rfl]
        exact ih ins2
  · intro fuel v ins hv
    cases fuel with
    | zero => cases ins <;> simp [vpcLoop, hv]
    | succ f => cases ins <;> simp [vpcLoop, hv]

theorem C9_witness :
    vpcLoop 3 "" ["vpc-123", "vpc-456"] = none ∧
    vpcLoop 3 "vpc-123" [] = some ("vpc-123", []) :=
  ⟨C9_vpc_prompt_loop.1 3 ["vpc-123", "vpc-456"],
   C9_vpc_prompt_loop.2 3 "vpc-123" [] (by decide)⟩

/-- C8 counterexample: the operator input "-3" is not a non-negative
integer, yet the validation loop accepts it on the spot — no reprompt, the
remaining input stream is untouched — refuting the claim that any input
that is not a non-negative integer causes a reprompt. -/
theorem C8_counterexample :
    numRoutesLoop 5 "-3" ["7"] = some (-3, ["7"]) ∧ ((-3 : Int) < 0) := by
  exact ⟨rfl, by decide⟩

/-- C8 amended: the count is accepted exactly when Python `int()` parses
it (an optionally signed integer, so negative counts are accepted too):
the first parseable input is returned with no further prompting, an
unparseable input consumes one more answer and loops, and `pymain` then
runs the additional-routes loop `toNat` of the accepted value times — zero
iterations, completing successfully, for any accepted negative count. -/
theorem C8_route_count_validation :
    (∀ (fuel : Nat) (s : String) (ins : List String) (n : Int),
        pyInt s = some n → numRoutesLoop fuel s ins = some (n, ins)) ∧
    (∀ (fuel : Nat) (s i : String) (ins : List String),
        pyInt s = none → numRoutesLoop (fuel + 1) s (i :: ins) = numRoutesLoop fuel i ins) ∧
    (∀ (c : Client) (rtb : String) (gw : Option String) (fuel : Nat) (n : Int)
        (ins : List String) (tr : List Ev), n < 0 →
        routesLoop c rtb gw fuel n.toNat ins tr = (tr, some (.ok ()))) := by
  refine ⟨?_, ?_, ?_⟩
  · intro fuel s ins n h
    cases fuel with
    | zero => cases ins <;> simp [numRoutesLoop, h]
    | succ f => cases ins <;> simp [numRoutesLoop, h]
  · intro fuel s i ins h
    simp [numRoutesLoop, h]
  · intro c rtb gw fuel n ins tr hn
    have h0 : n.toNat = 0 := Int.toNat_of_nonpos (le_of_lt hn)
    rw [h0]
    simp [routesLoop]

theorem C8_witness :
    numRoutesLoop 5 "-3" [] = some (-3, []) ∧
    numRoutesLoop 1 "x" ["2"] = numRoutesLoop 0 "2" [] ∧
    routesLoop okClient "rtb-1" (some "nat-1") 5 (-3 : Int).toNat [] [] =
      ([], some (.ok ())) :=
  ⟨C8_route_count_validation.1 5 "-3" [] (-3) (by decide),
   C8_route_count_validation.2.1 0 "x" "2" [] (by decide),
   C8_route_count_validation.2.2 okClient "rtb-1" (some "nat-1") 5 (-3) [] [] (by decide)⟩

/-- C2: the spec claims a failed/timed-out NAT gateway wait aborts the run
before any route table or route is created.  In the source the whole
NAT-creation/wait block is guarded by an `except` that only prints, so
with a client whose waiter always fails the run prints the error and then
goes on to create the route table, associate it, and create the default
route — and exits successfully. -/
theorem C2_wait_failure_run_continues :
    pymain waitFailClient 5 ["vpc-1", "10.0.0.0/16", "0"] =
      ([.createIgw, .attachIgw "igw-1" "vpc-1", .createSubnet "vpc-1" "10.0.0.0/16",
        .allocAddr, .createNat "subnet-1" "alloc-1", .waitNat "nat-1",
        .printErr (natGwErrMsg "subnet-1" "alloc-1"
          "Waiter NatGatewayAvailable failed: Max attempts exceeded"),
        .createRtb "vpc-1", .assocRtb "rtb-1" "subnet-1",
        .createRoute "rtb-1" "0.0.0.0/0" (some "igw-1") .igw],
       some (.ok ())) := by
  rfl

/-- C3: the spec claims a provider error on an additional route is caught
at the per-route boundary, reported as a warning, and the loop continues.
In the source `create_route` raises on a non-NotFound error and nothing in
the loop catches it, so the run aborts at the first failing additional
route: the second destination `192.168.1.0/24` is never attempted and the
process dies with the wrapped exception instead of exiting successfully. -/
theorem C3_additional_route_error_aborts :
    pymain addlRouteFailClient 5
        ["vpc-1", "10.0.0.0/16", "2", "172.16.0.0/16", "192.168.1.0/24"] =
      ([.createIgw, .attachIgw "igw-1" "vpc-1", .createSubnet "vpc-1" "10.0.0.0/16",
        .allocAddr, .createNat "subnet-1" "alloc-1", .waitNat "nat-1",
        .createRtb "vpc-1", .assocRtb "rtb-1" "subnet-1",
        .createRoute "rtb-1" "0.0.0.0/0" (some "igw-1") .igw,
        .createRoute "rtb-1" "172.16.0.0/16" (some "nat-1") .nat],
       some (.error (routeFailure "172.16.0.0/16" (some "nat-1") "rtb-1"
         "UnauthorizedOperation"))) := by
  rfl

/-- C4 counterexample: with a client on which NAT-gateway creation fails
(and everything else succeeds), the run still completes successfully —
but its trace contains no wait-for-NAT-gateway call at all while later
steps (route table, association, default route) did run, so the claimed
exact call sequence of every successful run is violated. -/
theorem C4_counterexample :
    (pymain natCreateFailClient 5 ["vpc-123", "10.0.5.0/24", "0"]).2 = some (.ok ()) ∧
    ((pymain natCreateFailClient 5 ["vpc-123", "10.0.5.0/24", "0"]).1.countP isWaitEv) = 0 ∧
    ((pymain natCreateFailClient 5 ["vpc-123", "10.0.5.0/24", "0"]).1.countP isNatCreateEv) = 1 ∧
    ((pymain natCreateFailClient 5 ["vpc-123", "10.0.5.0/24", "0"]).1.countP isRouteEv) = 1 := by
  exact ⟨rfl, rfl, rfl, rfl⟩

theorem isRouteEv_isCreationEv {e : Ev} (h : isRouteEv e = true) : isCreationEv e = true := by
  cases e <;> simp [isRouteEv, isCreationEv] at *

theorem filterCreation_eq_filterRoute (Δ : List Ev)
    (h : ∀ e ∈ Δ, isRouteEv e = true ∨ e = .sleep 5) :
    Δ.filter isCreationEv = Δ.filter isRouteEv := by
  induction Δ with
  | nil => rfl
  | cons a Δ ih =>
    have ha := h a (by simp)
    have hΔ : ∀ e ∈ Δ, isRouteEv e = true ∨ e = .sleep 5 := fun e he => h e (by simp [he])
    rcases ha with ha | ha
    · rw [List.filter_cons_of_pos (isRouteEv_isCreationEv ha),
        List.filter_cons_of_pos ha, ih hΔ]
    · subst ha
      rw [List.filter_cons_of_neg (by simp [isCreationEv]),
        List.filter_cons_of_neg (by simp [isRouteEv]), ih hΔ]

/-- C4 amended: in every run that completes successfully AND in which the
NAT-gateway availability wait was actually performed (the proviso the
swallowed NAT-creation failure forces: a run whose `create_nat_gateway`
call failed still completes successfully but skips the wait), the provider
calls occur in exactly the claimed order — create internet gateway, attach
it, create subnet, allocate address, create NAT gateway, wait for it,
create route table, associate it, then the default route — a create-route
call for destination `0.0.0.0/0` targeting the created internet gateway,
issued with IGW kind, followed only by NotFound retries of that same
destination and target (NAT kind, as C7 establishes) — and finally the
additional routes: nothing but NAT-kind create-route calls targeting the
NAT-gateway reference returned by setup (the created gateway id, or the
`None` the swallowed wait failure leaves behind). -/
theorem C4_creation_order (c : Client) (fuel : Nat) (inputs : List String)
    (tr : List Ev) (hrun : pymain c fuel inputs = (tr, some (.ok ())))
    (hwait : ∃ natId, Ev.waitNat natId ∈ tr) :
    ∃ vpc cidr igw subnet alloc natId rtb gwRef rs5 rs6,
      tr.filter isCreationEv =
        ([.createIgw, .attachIgw igw vpc, .createSubnet vpc cidr, .allocAddr,
          .createNat subnet alloc, .waitNat natId, .createRtb vpc, .assocRtb rtb subnet] ++
         (.createRoute rtb "0.0.0.0/0" (some igw) .igw :: rs5)) ++ rs6
      ∧ (∀ e ∈ rs5, e = .createRoute rtb "0.0.0.0/0" (some igw) .nat)
      ∧ (gwRef = some natId ∨ gwRef = none)
      ∧ (∀ e ∈ rs6, ∃ dst, e = .createRoute rtb dst gwRef .nat) := by
  obtain ⟨natId0, hmem⟩ := hwait
  cases inputs with
  | nil => simp [pymain] at hrun
  | cons v0 ins0 =>
    cases hv : vpcLoop fuel v0 ins0 with
    | none => simp [pymain, hv] at hrun
    | some pv =>
      obtain ⟨vpc, ins1⟩ := pv
      cases ins1 with
      | nil => simp [pymain, hv] at hrun
      | cons c0 ins2 =>
        cases hcl : cidrLoop fuel c0 ins2 with
        | none => simp [pymain, hv, hcl] at hrun
        | some pc =>
          obtain ⟨cidr, ins3⟩ := pc
          cases hig : create_igw c vpc [] with
          | mk tr1 r1 =>
            cases r1 with
            | error e1 => simp [pymain, hv, hcl, hig] at hrun
            | ok igw =>
              have htr1 : tr1 = [] ++ [Ev.createIgw, Ev.attachIgw igw vpc] :=
                create_igw_ok hig
              cases hsn : create_subnet c cidr vpc tr1 with
              | mk tr2 r2 =>
                cases r2 with
                | error e2 => simp [pymain, hv, hcl, hig, hsn] at hrun
                | ok subnet =>
                  have htr2 : tr2 = tr1 ++ [Ev.createSubnet vpc cidr] := create_subnet_ok hsn
                  cases hng : setup_nat_gateway c subnet tr2 with
                  | mk tr3 r3 =>
                    cases r3 with
                    | error e3 => simp [pymain, hv, hcl, hig, hsn, hng] at hrun
                    | ok natGw =>
                      have hsetup := setup_nat_gateway_ok hng
                      cases hrt : create_route_table c vpc subnet tr3 with
                      | mk tr4 r4 =>
                        cases r4 with
                        | error e4 => simp [pymain, hv, hcl, hig, hsn, hng, hrt] at hrun
                        | ok rtb =>
                          have htr4 : tr4 = tr3 ++ [Ev.createRtb vpc, Ev.assocRtb rtb subnet] :=
                            create_route_table_ok hrt
                          cases hdr : create_route c rtb "0.0.0.0/0" (some igw) "igw" fuel tr4 with
                          | mk tr5 r5 =>
                            cases r5 with
                            | none => simp [pymain, hv, hcl, hig, hsn, hng, hrt, hdr] at hrun
                            | some r5e =>
                              cases r5e with
                              | error e5 =>
                                simp [pymain, hv, hcl, hig, hsn, hng, hrt, hdr] at hrun
                              | ok v5 =>
                                have hok5 : (create_route c rtb "0.0.0.0/0" (some igw) "igw"
                                    fuel tr4).2 = some (.ok ()) := by
                                  rw [hdr]
                                obtain ⟨Δrest5, hΔ5, hall5⟩ :=
                                  create_route_trace_start c rtb "0.0.0.0/0" (some igw)
                                    "igw" .igw fuel tr4 rfl hok5
                                rw [hdr] at hΔ5
                                have htr5 : tr5 =
                                    tr4 ++ .createRoute rtb "0.0.0.0/0" (some igw) .igw
                                      :: Δrest5 := hΔ5
                                cases ins3 with
                                | nil => simp [pymain, hv, hcl, hig, hsn, hng, hrt, hdr] at hrun
                                | cons n0 ins4 =>
                                  cases hnr : numRoutesLoop fuel n0 ins4 with
                                  | none =>
                                    simp [pymain, hv, hcl, hig, hsn, hng, hrt, hdr, hnr] at hrun
                                  | some pn =>
                                    obtain ⟨n, ins5⟩ := pn
                                    have hrun2 :
                                        routesLoop c rtb natGw fuel n.toNat ins5 tr5 =
                                          (tr, some (.ok ())) := by
                                      simpa [pymain, hv, hcl, hig, hsn, hng, hrt, hdr, hnr]
                                        using hrun
                                    obtain ⟨Δ6, hΔ6, hall6⟩ :=
                                      routesLoop_trace_nat c rtb natGw fuel n.toNat ins5 tr5
                                    rw [hrun2] at hΔ6
                                    have htr : tr = tr5 ++ Δ6 := hΔ6
                                    rcases hsetup with
                                      ⟨alloc, m, hgw, htr3⟩ |
                                      ⟨alloc, natId, m, hgw, htr3⟩ |
                                      ⟨alloc, natId, hgw, htr3⟩
                                    · exfalso
                                      subst htr htr5 htr4 htr3 htr2 htr1
                                      have h5 := fixedRouteOrSleep_not_wait hall5 natId0
                                      have h6 := natRouteOrSleep_not_wait hall6 natId0
                                      simp [List.mem_append, h5, h6] at hmem
                                    · refine ⟨vpc, cidr, igw, subnet, alloc, natId, rtb, natGw,
                                        Δrest5.filter isCreationEv, Δ6.filter isCreationEv,
                                        ?_, ?_, Or.inr hgw, ?_⟩
                                      · subst htr htr5 htr4 htr3 htr2 htr1
                                        simp [List.filter_append, isCreationEv]
                                      · intro e he
                                        have hmf := List.mem_filter.mp he
                                        rcases hall5 e hmf.1 with h | h
                                        · exact h
                                        · subst h
                                          simp [isCreationEv] at hmf
                                      · intro e he
                                        have hmf := List.mem_filter.mp he
                                        rcases hall6 e hmf.1 with h | h
                                        · exact h
                                        · subst h
                                          simp [isCreationEv] at hmf
                                    · refine ⟨vpc, cidr, igw, subnet, alloc, natId, rtb, natGw,
                                        Δrest5.filter isCreationEv, Δ6.filter isCreationEv,
                                        ?_, ?_, Or.inl hgw, ?_⟩
                                      · subst htr htr5 htr4 htr3 htr2 htr1
                                        simp [List.filter_append, isCreationEv]
                                      · intro e he
                                        have hmf := List.mem_filter.mp he
                                        rcases hall5 e hmf.1 with h | h
                                        · exact h
                                        · subst h
                                          simp [isCreationEv] at hmf
                                      · intro e he
                                        have hmf := List.mem_filter.mp he
                                        rcases hall6 e hmf.1 with h | h
                                        · exact h
                                        · subst h
                                          simp [isCreationEv] at hmf

theorem C4_witness :
    ∃ vpc cidr igw subnet alloc natId rtb gwRef rs5 rs6,
      ([Ev.createIgw, Ev.attachIgw "igw-1" "vpc-123",
        Ev.createSubnet "vpc-123" "10.0.5.0/24", Ev.allocAddr,
        Ev.createNat "subnet-1" "alloc-1", Ev.waitNat "nat-1",
        Ev.createRtb "vpc-123", Ev.assocRtb "rtb-1" "subnet-1",
        Ev.createRoute "rtb-1" "0.0.0.0/0" (some "igw-1") .igw,
        Ev.createRoute "rtb-1" "172.16.0.0/16" (some "nat-1") .nat].filter isCreationEv) =
        ([.createIgw, .attachIgw igw vpc, .createSubnet vpc cidr, .allocAddr,
          .createNat subnet alloc, .waitNat natId, .createRtb vpc, .assocRtb rtb subnet] ++
         (.createRoute rtb "0.0.0.0/0" (some igw) .igw :: rs5)) ++ rs6
      ∧ (∀ e ∈ rs5, e = .createRoute rtb "0.0.0.0/0" (some igw) .nat)
      ∧ (gwRef = some natId ∨ gwRef = none)
      ∧ (∀ e ∈ rs6, ∃ dst, e = .createRoute rtb dst gwRef .nat) :=
  C4_creation_order okClient 5 ["vpc-123", "10.0.5.0/24", "1", "172.16.0.0/16"]
    [Ev.createIgw, Ev.attachIgw "igw-1" "vpc-123",
     Ev.createSubnet "vpc-123" "10.0.5.0/24", Ev.allocAddr,
     Ev.createNat "subnet-1" "alloc-1", Ev.waitNat "nat-1",
     Ev.createRtb "vpc-123", Ev.assocRtb "rtb-1" "subnet-1",
     Ev.createRoute "rtb-1" "0.0.0.0/0" (some "igw-1") .igw,
     Ev.createRoute "rtb-1" "172.16.0.0/16" (some "nat-1") .nat]
    rfl ⟨"nat-1", by simp⟩

theorem spanDigits_append (ds rest : List Char)
    (h1 : ∀ ch ∈ ds, ch.isDigit = true)
    (h2 : ∀ ch, rest.head? = some ch → ch.isDigit = false) :
    (ds ++ rest).takeWhile Char.isDigit = ds ∧
    (ds ++ rest).dropWhile Char.isDigit = rest := by
  induction ds with
  | nil =>
    cases rest with
    | nil => simp
    | cons r rs =>
      have hr := h2 r rfl
      constructor
      · simp [List.takeWhile_cons_of_neg, hr]
      · simp [List.dropWhile_cons_of_neg, hr]
  | cons d ds ih =>
    have hd := h1 d (by simp)
    have h1' : ∀ ch ∈ ds, ch.isDigit = true := fun ch hch => h1 ch (by simp [hch])
    obtain ⟨ht, hdrop⟩ := ih h1'
    constructor
    · simp only [List.cons_append, List.takeWhile_cons_of_pos hd, ht]
    · simp only [List.cons_append, List.dropWhile_cons_of_pos hd, hdrop]

theorem orE {a b : Bool} (h : (a || b) = true) : a = true ∨ b = true := by
  cases a <;> cases b <;> simp_all

theorem andE {a b : Bool} (h : (a && b) = true) : a = true ∧ b = true := by
  cases a <;> cases b <;> simp_all

theorem octetThenDot_some {l r : List Char} :
    octetThenDot l = some r ↔ ∃ ds, l = ds ++ '.' :: r ∧ IsOctet ds := by
  constructor
  · intro h
    unfold octetThenDot at h
    split at h
    · rename_i hlen
      split at h
      · rename_i r0 heq
        simp only [Option.some.injEq] at h
        subst h
        refine ⟨l.takeWhile Char.isDigit, ?_, ?_, hlen.2, ?_⟩
        · conv_lhs => rw [← List.takeWhile_append_dropWhile (p := Char.isDigit) (l := l)]
          rw [heq]
        · have : 0 < (l.takeWhile Char.isDigit).length := hlen.1
          exact List.length_pos.mp this
        · intro ch hch
          exact List.mem_takeWhile_imp hch
      · exact absurd h (by simp)
    · exact absurd h (by simp)
  · rintro ⟨ds, rfl, hne, hlen, hdig⟩
    obtain ⟨ht, hd⟩ := spanDigits_append ds ('.' :: r) hdig
      (by intro ch hch; simp only [List.head?_cons, Option.some.injEq] at hch; subst hch; decide)
    unfold octetThenDot
    simp only [ht, hd]
    rw [if_pos ⟨List.length_pos.mpr hne, hlen⟩]

theorem endOk_iff {l : List Char} : endOk l = true ↔ l = [] ∨ l = ['\n'] := by
  cases l with
  | nil => simp [endOk]
  | cons a l2 =>
    cases l2 with
    | nil => simp [endOk]
    | cons b l3 => simp [endOk]

theorem maskOk_inv {r : List Char} (h : maskOk r = true) :
    ∃ m nl, r = m ++ nl ∧ IsMask m ∧ (nl = [] ∨ nl = ['\n']) := by
  cases r with
  | nil => simp [maskOk] at h
  | cons a r2 =>
    simp only [maskOk] at h
    rcases orE h with h1 | h1
    · obtain ⟨hd, he⟩ := andE h1
      rcases endOk_iff.mp he with rfl | rfl
      · exact ⟨[a], [], rfl, Or.inl ⟨a, rfl, hd⟩, Or.inl rfl⟩
      · exact ⟨[a], ['\n'], rfl, Or.inl ⟨a, rfl, hd⟩, Or.inr rfl⟩
    · cases r2 with
      | nil => simp at h1
      | cons b r3 =>
        rcases orE h1 with h2 | h2
        · obtain ⟨h3, he⟩ := andE h2
          obtain ⟨h4, h5⟩ := andE h3
          have ha : a = '1' ∨ a = '2' := by
            rcases orE h4 with h | h
            · exact Or.inl (of_decide_eq_true h)
            · exact Or.inr (of_decide_eq_true h)
          rcases endOk_iff.mp he with rfl | rfl
          · exact ⟨[a, b], [], rfl, Or.inr (Or.inl ⟨a, b, rfl, ha, h5⟩), Or.inl rfl⟩
          · exact ⟨[a, b], ['\n'], rfl, Or.inr (Or.inl ⟨a, b, rfl, ha, h5⟩), Or.inr rfl⟩
        · obtain ⟨h3, he⟩ := andE h2
          obtain ⟨h4, h5⟩ := andE h3
          have ha : a = '3' := of_decide_eq_true h4
          have hb : b = '0' ∨ b = '1' ∨ b = '2' := by
            rcases orE h5 with h | h
            · rcases orE h with h | h
              · exact Or.inl (of_decide_eq_true h)
              · exact Or.inr (Or.inl (of_decide_eq_true h))
            · exact Or.inr (Or.inr (of_decide_eq_true h))
          subst ha
          rcases endOk_iff.mp he with rfl | rfl
          · exact ⟨['3', b], [], rfl, Or.inr (Or.inr ⟨b, rfl, hb⟩), Or.inl rfl⟩
          · exact ⟨['3', b], ['\n'], rfl, Or.inr (Or.inr ⟨b, rfl, hb⟩), Or.inr rfl⟩

theorem maskOk_of {m nl : List Char} (hm : IsMask m) (hnl : nl = [] ∨ nl = ['\n']) :
    maskOk (m ++ nl) = true := by
  have hend : endOk nl = true := by rcases hnl with rfl | rfl <;> simp [endOk]
  rcases hm with ⟨c0, rfl, hd⟩ | ⟨c0, c1, rfl, hc0, hd⟩ | ⟨c1, rfl, hc1⟩
  · simp [maskOk, hd, hend]
  · rcases hc0 with rfl | rfl <;> simp [maskOk, hd, hend]
  · rcases hc1 with rfl | rfl | rfl <;> simp [maskOk, hend]

theorem lastOctet_iff {l : List Char} :
    lastOctet l = true ↔ ∃ ds tail, l = ds ++ tail ∧ IsOctet ds ∧ TailOk tail := by
  constructor
  · intro h
    unfold lastOctet at h
    split at h
    · rename_i hlen
      rcases orE h with h1 | h1
      · refine ⟨l.takeWhile Char.isDigit, l.dropWhile Char.isDigit,
          (List.takeWhile_append_dropWhile (p := Char.isDigit) (l := l)).symm,
          ⟨List.length_pos.mp hlen.1, hlen.2, fun ch hch => List.mem_takeWhile_imp hch⟩, ?_⟩
        rcases endOk_iff.mp h1 with he | he
        · exact Or.inl he
        · exact Or.inr (Or.inl he)
      · split at h1
        · rename_i r heq
          obtain ⟨m, nl, hr, hm, hnl⟩ := maskOk_inv h1
          refine ⟨l.takeWhile Char.isDigit, l.dropWhile Char.isDigit,
            (List.takeWhile_append_dropWhile (p := Char.isDigit) (l := l)).symm,
            ⟨List.length_pos.mp hlen.1, hlen.2, fun ch hch => List.mem_takeWhile_imp hch⟩, ?_⟩
          exact Or.inr (Or.inr ⟨m, nl, by rw [heq, hr], hm, hnl⟩)
        · exact absurd h1 (by simp)
    · exact absurd h (by simp)
  · rintro ⟨ds, tail, rfl, ⟨hne, hlen, hdig⟩, htail⟩
    have hhead : ∀ ch, tail.head? = some ch → ch.isDigit = false := by
      intro ch hch
      rcases htail with rfl | rfl | ⟨m, nl, rfl, _, _⟩
      · simp at hch
      · simp only [List.head?_cons, Option.some.injEq] at hch
        subst hch
        decide
      · simp only [List.head?_cons, Option.some.injEq] at hch
        subst hch
        decide
    obtain ⟨ht, hd⟩ := spanDigits_append ds tail hdig hhead
    unfold lastOctet
    simp only [ht, hd]
    rw [if_pos ⟨List.length_pos.mpr hne, hlen⟩]
    rcases htail with rfl | rfl | ⟨m, nl, rfl, hm, hnl⟩
    · simp [endOk]
    · simp [endOk]
    · simp [maskOk_of hm hnl]

theorem cidrMatchL_iff {l : List Char} :
    cidrMatchL l = true ↔
      ∃ a b c d tail, l = a ++ ('.' :: (b ++ ('.' :: (c ++ ('.' :: (d ++ tail)))))) ∧
        IsOctet a ∧ IsOctet b ∧ IsOctet c ∧ IsOctet d ∧ TailOk tail := by
  constructor
  · intro h
    unfold cidrMatchL at h
    cases h1 : octetThenDot l with
    | none => simp [h1] at h
    | some l1 =>
      simp only [h1] at h
      cases h2 : octetThenDot l1 with
      | none => simp [h2] at h
      | some l2 =>
        simp only [h2] at h
        cases h3 : octetThenDot l2 with
        | none => simp [h3] at h
        | some l3 =>
          simp only [h3] at h
          obtain ⟨a, heqa, ha⟩ := octetThenDot_some.mp h1
          obtain ⟨b, heqb, hb⟩ := octetThenDot_some.mp h2
          obtain ⟨c, heqc, hc⟩ := octetThenDot_some.mp h3
          obtain ⟨d, tail, heqd, hd, htail⟩ := lastOctet_iff.mp h
          exact ⟨a, b, c, d, tail, by rw [heqa, heqb, heqc, heqd], ha, hb, hc, hd, htail⟩
  · rintro ⟨a, b, c, d, tail, rfl, ha, hb, hc, hd, htail⟩
    have e1 : octetThenDot (a ++ '.' :: (b ++ '.' :: (c ++ '.' :: (d ++ tail)))) =
        some (b ++ '.' :: (c ++ '.' :: (d ++ tail))) :=
      octetThenDot_some.mpr ⟨a, rfl, ha⟩
    have e2 : octetThenDot (b ++ '.' :: (c ++ '.' :: (d ++ tail))) =
        some (c ++ '.' :: (d ++ tail)) :=
      octetThenDot_some.mpr ⟨b, rfl, hb⟩
    have e3 : octetThenDot (c ++ '.' :: (d ++ tail)) = some (d ++ tail) :=
      octetThenDot_some.mpr ⟨c, rfl, hc⟩
    simp only [cidrMatchL, e1, e2, e3]
    exact lastOctet_iff.mpr ⟨d, tail, rfl, hd, htail⟩

/-- C5 counterexample: the claim's acceptance condition (reference regex
`(\d{1,3}\.){3}\d{1,3}(/\d{1,2})?` with mask value at most 32, as the
exact string shape) disagrees with the script's validator on two explicit
inputs: `1.2.3.4/05` has a two-digit mask of value 5 ≤ 32, so the claim
accepts it, but the script's mask alternation `[0-9]|[1-2][0-9]|3[0-2]`
rejects the leading zero; and `1.2.3.4` followed by a newline is accepted
by the script (Python's `$` matches before a final newline) but is not of
the claimed shape. -/
theorem C5_counterexample :
    specCidrAccepts "1.2.3.4/05" = true ∧ cidrAccepts "1.2.3.4/05" = false ∧
    cidrAccepts "1.2.3.4\n" = true ∧ specCidrAccepts "1.2.3.4\n" = false := by
  exact ⟨rfl, rfl, rfl, rfl⟩

/-- C5 amended: the script's CIDR validator accepts exactly the strings of
shape `A.B.C.D` or `A.B.C.D/N`, optionally followed by a single trailing
newline (admitted by the `$` anchor of Python's `re.match`), where each
octet is 1–3 decimal digits with no numeric range check and the mask `N`
is one of `0`–`9`, `1x`/`2x` with `x` a digit, or `30`–`32` — the decimal
numerals of 0 to 32 without leading zeros. -/
theorem C5_cidr_validator (s : String) : cidrAccepts s = true ↔ AmendedCidr s :=
  cidrMatchL_iff

theorem C5_cidr_validator_witness : AmendedCidr "10.0.5.0/24" :=
  (C5_cidr_validator "10.0.5.0/24").mp rfl

end DbConfigureNat
